import Mathlib

/-
Shallow embedding of the medxbaybackend booking platform (Express + Mongoose).
Sources embedded here:
  src/routes/doctor.js   (POST /bookings/:id booking-status-update handler,
                          router error handling)
  src/routes/patient.js  (POST /book, POST /add-to-favorites, router error
                          handling; the file also carries the app entry point
                          with GET /auth/search-doctors)
JavaScript Date values are modelled by the JsDate structure (calendar day plus
hour and minute, which is the precision the handlers use); Date.prototype.toISOString
is modelled by an injective encoding, since the code relies only on equality of
the produced strings.  Strings stay strings; mutable documents become explicit
record updates; the two awaited Mongoose saves of a handler become two explicit
state-passing steps.
-/

namespace MedxBay

/-- Model of a JavaScript Date value at the precision the handlers use:
a calendar day index plus hour and minute of day. -/
structure JsDate where
  day : Int
  hour : Nat
  minute : Nat
deriving DecidableEq, Repr

/-- Decimal digits of a natural number, most significant first.  The fuel
argument makes the recursion structural; any fuel above n suffices. -/
def natToChars : Nat → Nat → List Char
  | 0, _ => []
  | fuel + 1, n =>
    if n < 10 then [Char.ofNat (48 + n)]
    else natToChars fuel (n / 10) ++ [Char.ofNat (48 + n % 10)]

/-- Decimal rendering of an integer as a character list. -/
def intToChars (i : Int) : List Char :=
  if i < 0 then '-' :: natToChars (i.natAbs + 1) i.natAbs
  else natToChars (i.toNat + 1) i.toNat

/-- Model of Date.prototype.toISOString.  The code compares ISO strings only
for equality, and on time values toISOString is injective, so a rendering that
the separators keep injective is a faithful model. -/
def JsDate.toISOString (d : JsDate) : String :=
  String.mk (intToChars d.day ++ 'T' :: natToChars (d.hour + 1) d.hour ++
    ':' :: natToChars (d.minute + 1) d.minute)

/-- Model of moment#isAfter: strict chronological order on date-times. -/
def JsDate.isAfter (a b : JsDate) : Bool :=
  a.day > b.day ||
    (a.day == b.day && (a.hour > b.hour || (a.hour == b.hour && a.minute > b.minute)))

/-- Does the separator occur right at the head of the character list? -/
def sepAtHead : List Char → List Char → Bool
  | [], _ => true
  | _ :: _, [] => false
  | a :: as, b :: bs => a == b && sepAtHead as bs

/-- Split a character list at the first occurrence of the separator,
returning the part before it and the part after it; none when the separator
does not occur. -/
def splitFirst (sep : List Char) : List Char → Option (List Char × List Char)
  | [] => none
  | c :: cs =>
    if sepAtHead sep (c :: cs) then some ([], List.drop sep.length (c :: cs))
    else
      match splitFirst sep cs with
      | none => none
      | some (pre, post) => some (c :: pre, post)

/-- All separator-delimited segments of a character list; the fuel argument
makes the recursion structural and the list's length is always enough fuel
for a non-empty separator. -/
def splitAll (sep : List Char) : Nat → List Char → List (List Char)
  | 0, cs => [cs]
  | fuel + 1, cs =>
    match splitFirst sep cs with
    | none => [cs]
    | some (pre, post) => pre :: splitAll sep fuel post

/-- Model of JavaScript String.prototype.split with a plain non-empty
non-regex separator. -/
def jsSplit (sep s : String) : List String :=
  (splitAll sep.data (s.data.length + 1) s.data).map String.mk

/-- Accumulating decimal reader: some value when every character is a digit,
none otherwise. -/
def digitsValAux : List Char → Nat → Option Nat
  | [], acc => some acc
  | c :: cs, acc =>
    if c.isDigit then digitsValAux cs (acc * 10 + (c.toNat - 48)) else none

/-- Model of a strict decimal String-to-Nat parse: all-digit, non-empty. -/
def strToNatOpt (s : String) : Option Nat :=
  match s.data with
  | [] => none
  | l => digitsValAux l 0

/-- Model of moment(s, 'HH:mm'): read hour and minute from a colon-separated
string (doctor.js lines 193 and 194). -/
def parseHHMM (s : String) : Nat × Nat :=
  match jsSplit ":" s with
  | [h, m] => ((strToNatOpt h).getD 0, (strToNatOpt m).getD 0)
  | _ => (0, 0)

/-- Model of moment(date).set with an hour and minute: keep the day, replace
hour and minute (doctor.js lines 196 to 204). -/
def JsDate.setHM (d : JsDate) (hm : Nat × Nat) : JsDate :=
  { d with hour := hm.1, minute := hm.2 }

/-- Model of s.split(' - ')[0]: the segment before the first occurrence of
the separator; index 0 always exists. -/
def partBefore (s : String) : String := (jsSplit " - " s).getD 0 ""

/-- Model of s.split(' - ')[1]: the second segment; undefined (fewer than two
segments) is modelled by the empty string, and every use feeds the value to a
parser where both fail alike. -/
def partAfter (s : String) : String := (jsSplit " - " s).getD 1 ""

/-- JavaScript truthiness test for an optional string field: undefined, null
and the empty string are falsy. -/
def strFalsy : Option String → Bool
  | none => true
  | some s => s == ""

/-- Model of Array.prototype.findIndex, returning none instead of -1
(doctor.js line 224). -/
def jsFindIndex (p : α → Bool) : List α → Option Nat
  | [] => none
  | x :: xs => if p x then some 0 else (jsFindIndex p xs).map (· + 1)

/-- One time-slot entry of a doctor document (doctor.js /add-time-slot shows
the shape: date, startTime, endTime, status). -/
structure TimeSlot where
  date : JsDate
  startTime : String
  endTime : String
  status : String
deriving DecidableEq, Repr

/-- The part of a doctor document the embedded handlers read and write. -/
structure Doctor where
  id : String
  email : String
  timeSlots : List TimeSlot
deriving DecidableEq, Repr

/-- The part of a booking document the embedded handlers read and write.
patientEmail stands for the populated booking.patient.email. -/
structure Booking where
  patientId : String
  doctorId : String
  patientEmail : String
  date : JsDate
  time : String
  consultationType : String
  status : String
  meetingLink : Option String
deriving DecidableEq, Repr

/-- In-place update of the slot at one index, as the handler's assignment to
doctor.timeSlots[timeSlotIndex].status does (doctor.js lines 231 to 235). -/
def setSlotStatus : List TimeSlot → Nat → String → List TimeSlot
  | [], _, _ => []
  | s :: rest, 0, st => { s with status := st } :: rest
  | s :: rest, Nat.succ n, st => s :: setSlotStatus rest n st

/-- The booking's end date-time: booking.date with hour and minute taken from
the substring of booking.time after ' - ' (doctor.js lines 194 and 201). -/
def bookingEndDateTime (booking : Booking) : JsDate :=
  booking.date.setHM (parseHHMM (partAfter booking.time))

/-- The findIndex predicate of doctor.js lines 224 to 227: ISO strings of the
dates are equal and the slot's startTime equals the part of booking.time
before ' - '. -/
def slotMatchesBooking (booking : Booking) (slot : TimeSlot) : Bool :=
  slot.date.toISOString == booking.date.toISOString &&
    slot.startTime == partBefore booking.time

/-- The three-branch slot-status reconciliation of doctor.js lines 230 to 236,
as a function of the booking's prior status and the requested status. -/
def newSlotStatus (currentStatus status : String) : String :=
  if currentStatus == "rejected" && (status == "waiting" || status == "accepted") then
    "booked"
  else if status == "rejected" then
    "free"
  else
    "booked"

/-- One outbound appointment email, identified by recipient (the handler's
first argument to sendAppointmentEmail) and subject. -/
structure Email where
  recipient : String
  subject : String
deriving DecidableEq, Repr

/-- The notification block of doctor.js lines 240 to 298, run only inside the
matched-slot branch: which emails are sent and how many chat messages are
pushed, keyed on the requested status and the consultation type. -/
def acceptRejectEmails (status consultationType patientEmail doctorEmail : String) :
    List Email × Nat :=
  if status == "accepted" || status == "rejected" then
    if status == "accepted" then
      if consultationType == "Video call" then
        ([⟨patientEmail, "Appointment Confirmation"⟩,
          ⟨doctorEmail, "Appointment Confirmation Notification"⟩], 1)
      else if consultationType == "In-person" then
        ([⟨patientEmail, "Appointment Confirmation"⟩], 1)
      else
        ([], 0)
    else if status == "rejected" then
      ([⟨patientEmail, "Appointment Rejection"⟩], 1)
    else
      ([], 0)
  else
    ([], 0)

/-- Everything the booking-status-update handler produces on its success path:
the saved booking, the doctor document, whether doctor.save() ran, whether the
Google Meet calendar event was created, the emails sent and the number of chat
messages appended. -/
structure UpdateResult where
  booking : Booking
  doctor : Doctor
  doctorSaved : Bool
  meetLinkCreated : Bool
  emails : List Email
  chatMessages : Nat
deriving DecidableEq, Repr

/-- The POST /doctor/bookings/:id handler (doctor.js lines 175 to 308) on its
success path, as a pure function.  now is the moment() reading, status the
request-body status, newLink the link the external calendar call would return.
The findIndex call reads only booking.date and booking.time, which the earlier
status and meetingLink assignments leave untouched, so it is expressed over
the handler's input booking. -/
def updateBookingHandler (now : JsDate) (status : String) (booking : Booking)
    (doctor : Doctor) (newLink : String) : UpdateResult :=
  let currentStatus := booking.status
  let booking1 : Booking :=
    { booking with
        status := if now.isAfter (bookingEndDateTime booking) then "completed" else status }
  let createLink : Bool :=
    status == "accepted" && strFalsy booking1.meetingLink &&
      booking1.consultationType == "Video call"
  let booking2 : Booking :=
    { booking1 with
        meetingLink := if createLink then some newLink else booking1.meetingLink }
  match jsFindIndex (slotMatchesBooking booking) doctor.timeSlots with
  | some i =>
      let doctor1 : Doctor :=
        { doctor with timeSlots := setSlotStatus doctor.timeSlots i (newSlotStatus currentStatus status) }
      let notes := acceptRejectEmails status booking2.consultationType
        booking2.patientEmail doctor1.email
      { booking := booking2, doctor := doctor1, doctorSaved := true,
        meetLinkCreated := createLink, emails := notes.1, chatMessages := notes.2 }
  | none =>
      { booking := booking2, doctor := doctor, doctorSaved := false,
        meetLinkCreated := createLink, emails := [], chatMessages := 0 }

/-- The spec's simple reconciliation rule: a matched slot becomes free exactly
when the requested status is rejected, and booked otherwise. -/
def specSlotStatus (status : String) : String :=
  if status == "rejected" then "free" else "booked"

theorem jsFindIndex_eq_none_iff (p : α → Bool) (xs : List α) :
    jsFindIndex p xs = none ↔ ∀ x ∈ xs, p x = false := by
  induction xs with
  | nil => simp [jsFindIndex]
  | cons x xs ih =>
    by_cases h : p x <;> simp [jsFindIndex, h, ih]

theorem jsFindIndex_some_get (p : α → Bool) {xs : List α} {i : Nat}
    (h : jsFindIndex p xs = some i) : ∃ x, xs.get? i = some x ∧ p x = true := by
  induction xs generalizing i with
  | nil => simp [jsFindIndex] at h
  | cons x xs ih =>
    by_cases hx : p x
    · simp [jsFindIndex, hx] at h
      exact h ▸ ⟨x, rfl, hx⟩
    · simp only [jsFindIndex, hx, if_neg Bool.false_ne_true, Option.map_eq_some'] at h
      obtain ⟨j, hj, hji⟩ := h
      obtain ⟨y, hy, hpy⟩ := ih hj
      exact ⟨y, by simpa [← hji] using hy, hpy⟩

theorem jsFindIndex_some_first (p : α → Bool) {xs : List α} {i : Nat}
    (h : jsFindIndex p xs = some i) :
    ∀ j, j < i → ∀ x, xs.get? j = some x → p x = false := by
  induction xs generalizing i with
  | nil => simp [jsFindIndex] at h
  | cons x xs ih =>
    by_cases hx : p x
    · simp [jsFindIndex, hx] at h
      intro j hj y hy
      exact absurd hj (by omega)
    · simp only [jsFindIndex, hx, if_neg Bool.false_ne_true, Option.map_eq_some'] at h
      obtain ⟨k, hk, hki⟩ := h
      intro j hj y hy
      cases j with
      | zero =>
        simp only [List.get?] at hy
        cases hy
        simpa using hx
      | succ j =>
        exact ih hk j (by omega) y (by simpa using hy)

theorem newSlotStatus_eq_spec (currentStatus status : String) :
    newSlotStatus currentStatus status = specSlotStatus status := by
  unfold newSlotStatus specSlotStatus
  by_cases h : status = "rejected"
  · subst h; simp
  · by_cases hw : status = "waiting"
    · subst hw; simp
    · by_cases ha : status = "accepted"
      · subst ha; simp
      · simp [beq_iff_eq, h, hw, ha]

/-- C1: for every booking reaching the status-update branch, the handler
assigns status completed when the current time is strictly after the booking's
end date-time, built from booking.date and the substring of booking.time after
the separator, and otherwise assigns the requested status from the request
body. -/
theorem booking_status_assignment (now : JsDate) (status : String) (booking : Booking)
    (doctor : Doctor) (link : String) :
    (updateBookingHandler now status booking doctor link).booking.status =
      if now.isAfter (bookingEndDateTime booking) then "completed" else status := by
  unfold updateBookingHandler
  cases hidx : jsFindIndex (slotMatchesBooking booking) doctor.timeSlots <;> simp

/-- C2: when a matching time-slot entry is found, the three-branch
reconciliation leaves that slot at exactly the value of the spec's simple
rule: free when the requested status is rejected, booked otherwise; the first
branch, keyed on the prior booking status, never changes the outcome. -/
theorem slot_update_matches_spec_rule (now : JsDate) (status : String) (booking : Booking)
    (doctor : Doctor) (link : String) (i : Nat)
    (h : jsFindIndex (slotMatchesBooking booking) doctor.timeSlots = some i) :
    (updateBookingHandler now status booking doctor link).doctor.timeSlots =
      setSlotStatus doctor.timeSlots i (specSlotStatus status) := by
  unfold updateBookingHandler
  rw [h]
  simp [newSlotStatus_eq_spec]

/-- Booking already accepted, scheduled 10:00 to 11:00 on day 100, used to
exercise the status-regression path of the update handler. -/
def bookingC3 : Booking :=
  { patientId := "p1", doctorId := "d1", patientEmail := "p1@example.com",
    date := ⟨100, 0, 0⟩, time := "10:00 - 11:00",
    consultationType := "In-person", status := "accepted", meetingLink := none }

/-- A doctor document with no time slots. -/
def doctorC3 : Doctor := { id := "d1", email := "doc@example.com", timeSlots := [] }

/-- C3 counterexample: with the current time before the booking's end, the
handler assigns the requested status verbatim, so a booking whose stored
status is accepted is moved back to waiting when waiting is requested; the
claimed one-way lifecycle does not hold on the code. -/
theorem lifecycle_counterexample :
    bookingC3.status = "accepted" ∧
    (JsDate.mk 100 9 0).isAfter (bookingEndDateTime bookingC3) = false ∧
    (updateBookingHandler ⟨100, 9, 0⟩ "waiting" bookingC3 doctorC3 "").booking.status =
      "waiting" := by
  decide

/-- C3 amended: the handler enforces no lifecycle on the booking status: past
the booking's end it assigns completed whatever was requested, and otherwise
it assigns the requested status verbatim, which in particular moves a booking
back to waiting whenever waiting is requested before the end time. -/
theorem lifecycle_amended (now : JsDate) (status : String) (booking : Booking)
    (doctor : Doctor) (link : String) :
    (now.isAfter (bookingEndDateTime booking) = true →
      (updateBookingHandler now status booking doctor link).booking.status = "completed") ∧
    (now.isAfter (bookingEndDateTime booking) = false →
      (updateBookingHandler now status booking doctor link).booking.status = status) := by
  unfold updateBookingHandler
  cases hidx : jsFindIndex (slotMatchesBooking booking) doctor.timeSlots <;>
    constructor <;> intro h <;> simp [h]

/-- C3 amended witness at concrete inputs: past its end a booking is
completed, before its end it takes the requested status. -/
theorem lifecycle_amended_witness :
    (updateBookingHandler ⟨100, 12, 0⟩ "accepted" bookingC3 doctorC3 "").booking.status =
        "completed" ∧
    (updateBookingHandler ⟨100, 9, 0⟩ "accepted" bookingC3 doctorC3 "").booking.status =
        "accepted" :=
  ⟨(lifecycle_amended ⟨100, 12, 0⟩ "accepted" bookingC3 doctorC3 "").1 (by decide),
   (lifecycle_amended ⟨100, 9, 0⟩ "accepted" bookingC3 doctorC3 "").2 (by decide)⟩

/-- A slot on the booking's day that starts at a different time. -/
def slotBefore : TimeSlot :=
  { date := ⟨100, 0, 0⟩, startTime := "09:00", endTime := "10:00", status := "free" }

/-- The slot bookingC3 occupies. -/
def slotTen : TimeSlot :=
  { date := ⟨100, 0, 0⟩, startTime := "10:00", endTime := "11:00", status := "booked" }

/-- A doctor whose second slot matches bookingC3. -/
def doctorTwoSlots : Doctor :=
  { id := "d1", email := "doc@example.com", timeSlots := [slotBefore, slotTen] }

/-- C2 witness: on a concrete doctor whose second slot matches the booking, a
rejected request leaves that slot at exactly the spec rule's value. -/
theorem slot_update_matches_spec_rule_witness :
    (updateBookingHandler ⟨100, 9, 0⟩ "rejected" bookingC3 doctorTwoSlots "").doctor.timeSlots =
      setSlotStatus doctorTwoSlots.timeSlots 1 (specSlotStatus "rejected") :=
  slot_update_matches_spec_rule ⟨100, 9, 0⟩ "rejected" bookingC3 doctorTwoSlots "" 1 (by decide)

/-- C4: the slot acted on is located by linear search: when no element of
doctor.timeSlots matches the booking's ISO date string and start time, the
doctor document is left unchanged; when the search returns index i, the
element there matches, every element at a lower index does not, and the
update rewrites exactly the slot at index i. -/
theorem slot_search_first_match (now : JsDate) (status : String) (booking : Booking)
    (doctor : Doctor) (link : String) :
    ((∀ slot ∈ doctor.timeSlots, slotMatchesBooking booking slot = false) →
      (updateBookingHandler now status booking doctor link).doctor = doctor) ∧
    (∀ i, jsFindIndex (slotMatchesBooking booking) doctor.timeSlots = some i →
      (∃ slot, doctor.timeSlots.get? i = some slot ∧ slotMatchesBooking booking slot = true) ∧
      (∀ j, j < i → ∀ slot, doctor.timeSlots.get? j = some slot →
        slotMatchesBooking booking slot = false) ∧
      (updateBookingHandler now status booking doctor link).doctor.timeSlots =
        setSlotStatus doctor.timeSlots i (newSlotStatus booking.status status)) := by
  constructor
  · intro hnone
    have h0 : jsFindIndex (slotMatchesBooking booking) doctor.timeSlots = none :=
      (jsFindIndex_eq_none_iff _ _).mpr hnone
    unfold updateBookingHandler
    rw [h0]
  · intro i hi
    refine ⟨jsFindIndex_some_get _ hi, jsFindIndex_some_first _ hi, ?_⟩
    unfold updateBookingHandler
    rw [hi]

/-- C4 witness: on a concrete doctor the search returns the second slot, that
slot is rewritten, and a slotless doctor is left unchanged. -/
theorem slot_search_first_match_witness :
    (∃ slot, doctorTwoSlots.timeSlots.get? 1 = some slot ∧
      slotMatchesBooking bookingC3 slot = true) ∧
    (updateBookingHandler ⟨100, 9, 0⟩ "accepted" bookingC3 doctorTwoSlots "").doctor.timeSlots =
      setSlotStatus doctorTwoSlots.timeSlots 1 (newSlotStatus bookingC3.status "accepted") ∧
    (updateBookingHandler ⟨100, 9, 0⟩ "accepted" bookingC3 doctorC3 "").doctor = doctorC3 :=
  have h1 := (slot_search_first_match ⟨100, 9, 0⟩ "accepted" bookingC3 doctorTwoSlots "").2
    1 (by decide)
  have h2 := (slot_search_first_match ⟨100, 9, 0⟩ "accepted" bookingC3 doctorC3 "").1
    (by decide)
  ⟨h1.1, h1.2.2, h2⟩

/-- Booking with a consultation type the notification block does not know,
waiting for approval on day 100 from 10:00 to 11:00. -/
def bookingPhone : Booking :=
  { patientId := "p1", doctorId := "d1", patientEmail := "p1@example.com",
    date := ⟨100, 0, 0⟩, time := "10:00 - 11:00",
    consultationType := "Phone", status := "waiting", meetingLink := none }

/-- A doctor whose only slot matches bookingPhone. -/
def doctorOneSlot : Doctor :=
  { id := "d1", email := "doc@example.com", timeSlots := [slotTen] }

/-- C5 counterexample: a matching slot exists and the requested status is
accepted, yet no email is sent and no chat message is appended, because the
consultation type is neither Video call nor In-person; the notifications are
not produced exactly under the claimed condition. -/
theorem email_condition_counterexample :
    jsFindIndex (slotMatchesBooking bookingPhone) doctorOneSlot.timeSlots = some 0 ∧
    (updateBookingHandler ⟨100, 9, 0⟩ "accepted" bookingPhone doctorOneSlot "L").emails = [] ∧
    (updateBookingHandler ⟨100, 9, 0⟩ "accepted" bookingPhone doctorOneSlot "L").chatMessages
      = 0 := by
  decide

/-- C5 amended: the appointment email is sent exactly when a matching slot
exists and the requested status is rejected, or accepted with consultation
type Video call or In-person; the chat message is appended exactly under the
same condition; and the calendar event is created exactly when the requested
status is accepted, the booking has no meeting link and the consultation type
is Video call, independently of the slot search. -/
theorem email_and_meetlink_conditions (now : JsDate) (status : String) (booking : Booking)
    (doctor : Doctor) (link : String) :
    ((updateBookingHandler now status booking doctor link).emails ≠ [] ↔
      ((jsFindIndex (slotMatchesBooking booking) doctor.timeSlots).isSome = true ∧
        (status = "rejected" ∨ status = "accepted" ∧
          (booking.consultationType = "Video call" ∨
            booking.consultationType = "In-person")))) ∧
    ((updateBookingHandler now status booking doctor link).chatMessages ≠ 0 ↔
      ((jsFindIndex (slotMatchesBooking booking) doctor.timeSlots).isSome = true ∧
        (status = "rejected" ∨ status = "accepted" ∧
          (booking.consultationType = "Video call" ∨
            booking.consultationType = "In-person")))) ∧
    ((updateBookingHandler now status booking doctor link).meetLinkCreated = true ↔
      (status = "accepted" ∧ strFalsy booking.meetingLink = true ∧
        booking.consultationType = "Video call")) := by
  unfold updateBookingHandler
  cases hidx : jsFindIndex (slotMatchesBooking booking) doctor.timeSlots
  · by_cases hacc : status = "accepted" <;>
      simp [acceptRejectEmails, hacc, beq_iff_eq, and_assoc]
  · by_cases hacc : status = "accepted"
    · subst hacc
      by_cases hv : booking.consultationType = "Video call"
      · simp [acceptRejectEmails, hv, beq_iff_eq, and_assoc]
      · by_cases hip : booking.consultationType = "In-person" <;>
          simp [acceptRejectEmails, hv, hip, beq_iff_eq, and_assoc]
    · by_cases hrej : status = "rejected" <;>
        simp [acceptRejectEmails, hacc, hrej, beq_iff_eq, and_assoc]

/-- C5 amended witness: at a concrete rejected booking with a matching slot
an email is sent and a chat message appended, and at a concrete accepted
booking of an unknown consultation type no calendar event is created. -/
theorem email_and_meetlink_conditions_witness :
    (updateBookingHandler ⟨100, 9, 0⟩ "rejected" bookingC3 doctorTwoSlots "").emails ≠ [] ∧
    (updateBookingHandler ⟨100, 9, 0⟩ "rejected" bookingC3 doctorTwoSlots "").chatMessages
      ≠ 0 ∧
    ((updateBookingHandler ⟨100, 9, 0⟩ "accepted" bookingPhone doctorOneSlot "L").meetLinkCreated
      = true → False) :=
  ⟨(email_and_meetlink_conditions ⟨100, 9, 0⟩ "rejected" bookingC3 doctorTwoSlots "").1.mpr
      (by decide),
   (email_and_meetlink_conditions ⟨100, 9, 0⟩ "rejected" bookingC3 doctorTwoSlots "").2.1.mpr
      (by decide),
   fun h => by
    have := (email_and_meetlink_conditions ⟨100, 9, 0⟩ "accepted" bookingPhone
      doctorOneSlot "L").2.2.mp h
    exact absurd this.2.2 (by decide)⟩

/-- Metadata of one Express route handler: HTTP method, mounted path, whether
the whole handler body is wrapped in a try/catch, and whether the catch block
logs the error and answers with a generic HTTP 500 body. -/
structure RouteHandler where
  method : String
  path : String
  wrapsBodyInTry : Bool
  catchLogs : Bool
  catchSends500 : Bool
deriving DecidableEq, Repr

/-- Every handler registered on the doctor router (src/routes/doctor.js), in
source order.  Three handlers, GET /subscribe, GET /subscription-failure and
GET /blog, have no try/catch at all; for them the two catch fields are
vacuously false.  Every other handler wraps its body in try/catch, logs via
console.error and answers res.status(500) with a generic body. -/
def doctorRouterHandlers : List RouteHandler :=
  [⟨"GET", "/doctor-index", true, true, true⟩,
   ⟨"GET", "/profile", true, true, true⟩,
   ⟨"GET", "/edit", true, true, true⟩,
   ⟨"POST", "/profile/update", true, true, true⟩,
   ⟨"POST", "/profile/verify", true, true, true⟩,
   ⟨"GET", "/bookings", true, true, true⟩,
   ⟨"POST", "/bookings/:id", true, true, true⟩,
   ⟨"GET", "/completed-bookings", true, true, true⟩,
   ⟨"GET", "/bookings/:id/prescription", true, true, true⟩,
   ⟨"POST", "/prescriptions/upload", true, true, true⟩,
   ⟨"GET", "/doctor-view/:id/prescriptions", true, true, true⟩,
   ⟨"GET", "/manage-time-slots", true, true, true⟩,
   ⟨"DELETE", "/manage-time-slots/:index", true, true, true⟩,
   ⟨"POST", "/add-time-slot", true, true, true⟩,
   ⟨"GET", "/calendar", true, true, true⟩,
   ⟨"GET", "/subscribe", false, false, false⟩,
   ⟨"POST", "/subscribe", true, true, true⟩,
   ⟨"GET", "/subscription-success", true, true, true⟩,
   ⟨"GET", "/subscription-failure", false, false, false⟩,
   ⟨"GET", "/blog", false, false, false⟩,
   ⟨"POST", "/blog", true, true, true⟩,
   ⟨"GET", "/profile/blogs", true, true, true⟩,
   ⟨"GET", "/blogs/edit/:id", true, true, true⟩,
   ⟨"POST", "/blogs/edit/:id", true, true, true⟩,
   ⟨"GET", "/dashboard", true, true, true⟩,
   ⟨"POST", "/chats/:chatId/send-message", true, true, true⟩,
   ⟨"GET", "/chat/:id", true, true, true⟩,
   ⟨"GET", "/blogs/view/:id", true, true, true⟩,
   ⟨"POST", "/blogs/comment/:id", true, true, true⟩,
   ⟨"GET", "/author/:id", true, true, true⟩,
   ⟨"GET", "/priority-blogs", true, true, true⟩,
   ⟨"GET", "/blogs", true, true, true⟩]

/-- Every handler registered on the patient router (src/routes/patient.js),
in source order; each wraps its body in try/catch, logs via console.error and
answers res.status(500) with a generic body. -/
def patientRouterHandlers : List RouteHandler :=
  [⟨"GET", "/profile", true, true, true⟩,
   ⟨"GET", "/edit", true, true, true⟩,
   ⟨"POST", "/profile/update", true, true, true⟩,
   ⟨"GET", "/doctors", true, true, true⟩,
   ⟨"GET", "/doctors/:id/slots", true, true, true⟩,
   ⟨"POST", "/book", true, true, true⟩,
   ⟨"GET", "/bookings", true, true, true⟩,
   ⟨"GET", "/search-doctors", true, true, true⟩,
   ⟨"POST", "/add-to-favorites", true, true, true⟩,
   ⟨"GET", "/favorites", true, true, true⟩,
   ⟨"GET", "/calendar", true, true, true⟩]

/-- C6 counterexample: the doctor router registers a handler, GET /subscribe,
whose body is not wrapped in any try/catch, so an exception thrown inside it
is not caught inside the route handler. -/
theorem route_error_handling_counterexample :
    RouteHandler.mk "GET" "/subscribe" false false false ∈ doctorRouterHandlers ∧
    doctorRouterHandlers.all (fun h => h.wrapsBodyInTry) = false := by
  decide

/-- C6 amended: every handler of the doctor and patient routers that wraps
its body in try/catch (all but three) logs the error message and sends a
generic HTTP 500 from the catch block; the only handlers without a try/catch
are GET /subscribe, GET /subscription-failure and GET /blog on the doctor
router, whose bodies are a single render or send call. -/
theorem route_error_handling_amended :
    ∀ h ∈ doctorRouterHandlers ++ patientRouterHandlers,
      (h.wrapsBodyInTry = true → h.catchLogs = true ∧ h.catchSends500 = true) ∧
      (h.wrapsBodyInTry = false →
        (h.method, h.path) ∈
          [("GET", "/subscribe"), ("GET", "/subscription-failure"), ("GET", "/blog")]) := by
  decide

/-- C6 amended witness: the booking-status-update route itself catches, logs
and maps errors to a 500 response. -/
theorem route_error_handling_witness :
    (RouteHandler.mk "POST" "/bookings/:id" true true true).catchLogs = true ∧
    (RouteHandler.mk "POST" "/bookings/:id" true true true).catchSends500 = true :=
  (route_error_handling_amended (RouteHandler.mk "POST" "/bookings/:id" true true true)
    (by decide)).1 rfl

/-- JavaScript truthiness of a query-string parameter: an absent parameter is
modelled by the empty string, and a string is truthy exactly when it is
non-empty. -/
def jsTruthy (s : String) : Bool := s != ""

/-- The query parameters GET /auth/search-doctors destructures; whereLoc
stands for the JavaScript identifier named like Lean's where keyword.
dateAvailability is destructured by the source but never used. -/
structure SearchParams where
  what : String
  whereLoc : String
  country : String
  state : String
  city : String
  speciality : String
  languages : String
  gender : String
  hospitals : String
  availability : String
  dateAvailability : String
deriving DecidableEq, Repr

/-- One disjunct of the query's $or filter; each carries the pattern wrapped
in a case-insensitive RegExp by the source. -/
inductive OrClause where
  | bySpeciality (pat : String)
  | byName (pat : String)
  | byConditions (pat : String)
  | byCity (pat : String)
  | byState (pat : String)
  | byCountry (pat : String)
deriving DecidableEq, Repr

/-- The Mongo filter object the route builds: the three always-present
conditions, the optional per-field conditions, and the single $or slot that
plain assignment overwrites. -/
structure DoctorQuery where
  role : String
  verified : String
  timeSlotsStatus : String
  country : Option String
  state : Option String
  city : Option String
  speciality : Option String
  languages : Option String
  gender : Option String
  hospitals : Option String
  availability : Option Bool
  orFilter : Option (List OrClause)
deriving DecidableEq, Repr

/-- The per-field conditional assignments of GET /auth/search-doctors (app
entry point, lines 398 to 407): the three base conditions role, verified and
free-slot, then one conditional assignment per scalar parameter in source
order. -/
def fieldFiltersQuery (p : SearchParams) : DoctorQuery :=
  let q : DoctorQuery :=
    { role := "doctor", verified := "Verified", timeSlotsStatus := "free",
      country := none, state := none, city := none, speciality := none,
      languages := none, gender := none, hospitals := none,
      availability := none, orFilter := none }
  let q := if jsTruthy p.country then { q with country := some p.country } else q
  let q := if jsTruthy p.state then { q with state := some p.state } else q
  let q := if jsTruthy p.city then { q with city := some p.city } else q
  let q := if jsTruthy p.speciality then { q with speciality := some p.speciality } else q
  let q := if jsTruthy p.languages then { q with languages := some p.languages } else q
  let q := if jsTruthy p.gender then { q with gender := some p.gender } else q
  let q := if jsTruthy p.hospitals then { q with hospitals := some p.hospitals } else q
  let q := if jsTruthy p.availability then
      { q with availability := some (p.availability == "true") }
    else q
  q

/-- The query construction of GET /auth/search-doctors (lines 398 to 422):
the per-field assignments, then the what block and the where block, which
both assign query.$or by plain assignment, the second replacing the first. -/
def buildSearchDoctorsQuery (p : SearchParams) : DoctorQuery :=
  let q := fieldFiltersQuery p
  let q := if jsTruthy p.what then
      { q with orFilter := some [OrClause.bySpeciality p.what, OrClause.byName p.what,
          OrClause.byConditions p.what] }
    else q
  let q := if jsTruthy p.whereLoc then
      { q with orFilter := some [OrClause.byCity p.whereLoc, OrClause.byState p.whereLoc,
          OrClause.byCountry p.whereLoc] }
    else q
  q

theorem jsTruthy_empty : jsTruthy "" = false := rfl

/-- C9: when both the what and the where parameters are present, the query is
the same as if what had been absent, and its $or filter is exactly the
location disjunction built from where; the what criteria have no effect. -/
theorem what_overwritten_by_where (p : SearchParams)
    (hw : jsTruthy p.what = true) (hl : jsTruthy p.whereLoc = true) :
    buildSearchDoctorsQuery p = buildSearchDoctorsQuery { p with what := "" } ∧
    (buildSearchDoctorsQuery p).orFilter =
      some [OrClause.byCity p.whereLoc, OrClause.byState p.whereLoc,
        OrClause.byCountry p.whereLoc] := by
  have hbase : fieldFiltersQuery { p with what := "" } = fieldFiltersQuery p := rfl
  constructor <;>
    simp [buildSearchDoctorsQuery, hbase, hw, hl, jsTruthy_empty]

/-- C9 witness: with concrete what and where both present, the query equals
the one built with what absent and filters by the where disjunction. -/
theorem what_overwritten_by_where_witness :
    buildSearchDoctorsQuery
        ⟨"cardio", "Paris", "", "", "", "", "", "", "", "", ""⟩ =
      buildSearchDoctorsQuery ⟨"", "Paris", "", "", "", "", "", "", "", "", ""⟩ ∧
    (buildSearchDoctorsQuery
        ⟨"cardio", "Paris", "", "", "", "", "", "", "", "", ""⟩).orFilter =
      some [OrClause.byCity "Paris", OrClause.byState "Paris", OrClause.byCountry "Paris"] :=
  what_overwritten_by_where ⟨"cardio", "Paris", "", "", "", "", "", "", "", "", ""⟩
    (by decide) (by decide)

/-- The part of a patient document POST /patient/add-to-favorites reads and
writes; favoriteDoctors is optional because the source guards against the
field being undefined. -/
structure Patient where
  favoriteDoctors : Option (List String)
deriving DecidableEq, Repr

/-- The favorites list the handler works on after the undefined guard of
patient.js lines 238 to 240: an absent field counts as the empty list. -/
def currentFavs (patient : Patient) : List String :=
  match patient.favoriteDoctors with
  | none => []
  | some l => l

/-- Outcome of POST /patient/add-to-favorites. -/
inductive FavResult where
  | notFound
  | alreadyInFavorites (patient : Patient)
  | added (patient : Patient)
deriving DecidableEq, Repr

/-- POST /patient/add-to-favorites (patient.js lines 226 to 254): 404 when
the patient or the doctor is missing; 400 with the patient unchanged when the
id is already in the list (the includes test, with Mongoose casting ids for
comparison, is List.contains here); otherwise push the id and save. -/
def addToFavorites (patientOpt : Option Patient) (doctorFound : Bool)
    (doctorId : String) : FavResult :=
  match patientOpt, doctorFound with
  | none, _ => FavResult.notFound
  | some _, false => FavResult.notFound
  | some patient, true =>
    let favs := currentFavs patient
    if favs.contains doctorId then
      FavResult.alreadyInFavorites patient
    else
      FavResult.added { patient with favoriteDoctors := some (favs ++ [doctorId]) }

/-- C10: for a patient and doctor that both exist, adding a doctor already in
the favorites answers 400 with the list unchanged, and adding a new doctor
appends it exactly once; in both cases a duplicate-free list stays
duplicate-free. -/
theorem favorites_no_duplicates (patient : Patient) (doctorId : String)
    (hnodup : (currentFavs patient).Nodup) :
    ((currentFavs patient).contains doctorId = true →
      addToFavorites (some patient) true doctorId = FavResult.alreadyInFavorites patient) ∧
    ((currentFavs patient).contains doctorId = false →
      addToFavorites (some patient) true doctorId =
        FavResult.added
          { patient with favoriteDoctors := some (currentFavs patient ++ [doctorId]) } ∧
      (currentFavs patient ++ [doctorId]).Nodup ∧
      (currentFavs patient ++ [doctorId]).count doctorId = 1) := by
  constructor
  · intro h
    have hmem : doctorId ∈ currentFavs patient := by simpa using h
    simp [addToFavorites, hmem]
  · intro h
    have hmem : doctorId ∉ currentFavs patient := by simpa using h
    refine ⟨by simp [addToFavorites, hmem], ?_, ?_⟩
    · simp [List.nodup_append, hnodup, hmem]
    · simp [List.count_append, List.count_eq_zero.mpr hmem]

/-- C10 witness: a patient with one favorite: re-adding it is refused and the
list untouched, adding a second appends exactly once and keeps the list
duplicate-free. -/
theorem favorites_no_duplicates_witness :
    addToFavorites (some ⟨some ["d1"]⟩) true "d1" =
        FavResult.alreadyInFavorites ⟨some ["d1"]⟩ ∧
    addToFavorites (some ⟨some ["d1"]⟩) true "d2" =
        FavResult.added ⟨some ["d1", "d2"]⟩ ∧
    (["d1", "d2"] : List String).Nodup :=
  have h1 := (favorites_no_duplicates ⟨some ["d1"]⟩ "d1" (by decide)).1 (by decide)
  have h2 := (favorites_no_duplicates ⟨some ["d1"]⟩ "d2" (by decide)).2 (by decide)
  ⟨h1, h2.1, h2.2.1⟩

/-- Model of a strict decimal String-to-Int parse, for reading the day field
back out of an ISO-style string. -/
def strToIntOpt (s : String) : Option Int :=
  match s.data with
  | '-' :: rest =>
    match rest with
    | [] => none
    | l => (digitsValAux l 0).map (fun n => -(n : Int))
  | [] => none
  | l => (digitsValAux l 0).map (fun n => (n : Int))

/-- Model of the Date constructor applied to the request's date string
(patient.js line 148): parse the encoding JsDate.toISOString produces; any
other string yields a fixed date, which no claim depends on. -/
def newDate (s : String) : JsDate :=
  match jsSplit "T" s with
  | [d, hm] =>
    match jsSplit ":" hm with
    | [h, m] =>
      ⟨(strToIntOpt d).getD 0, (strToNatOpt h).getD 0, (strToNatOpt m).getD 0⟩
    | _ => ⟨0, 0, 0⟩
  | _ => ⟨0, 0, 0⟩

/-- The request body of POST /patient/book, plus the session's patient id;
date is the raw request string. -/
structure BookReq where
  patientId : String
  doctorId : String
  date : String
  time : String
  consultationType : String
deriving DecidableEq, Repr

/-- The new Booking document of patient.js lines 145 to 152: status is the
literal waiting, the date is the parsed request date, nothing else is set. -/
def mkBooking (req : BookReq) : Booking :=
  { patientId := req.patientId, doctorId := req.doctorId, patientEmail := "",
    date := newDate req.date, time := req.time,
    consultationType := req.consultationType, status := "waiting",
    meetingLink := none }

/-- The find predicate of patient.js line 161: the slot's ISO date string
equals the raw request date string, and the slot's startTime equals the part
of the request time before the separator.  (The slot and slot.date null
guards never fire here, where every stored slot is a whole document.) -/
def slotMatchesReq (req : BookReq) (slot : TimeSlot) : Bool :=
  slot.date.toISOString == req.date && slot.startTime == partBefore req.time

/-- The persistent state POST /patient/book touches: the booking collection
and the doctor collection. -/
structure PatientDB where
  bookings : List Booking
  doctors : List Doctor
deriving DecidableEq, Repr

/-- First write of POST /patient/book: await booking.save() (line 154). -/
def bookSaveStep (req : BookReq) (db : PatientDB) : PatientDB :=
  { db with bookings := db.bookings ++ [mkBooking req] }

/-- The placeholder an out-of-range doctor lookup would return; never reached
when the index comes from jsFindIndex. -/
def defaultDoctor : Doctor := { id := "", email := "", timeSlots := [] }

/-- Second write of POST /patient/book (lines 156 to 165): find the doctor by
id, then the first matching slot (the source's .find hands back the first
matching array element and mutates it in place, which is an update at its
index), set it to booked and await doctor.save(); when the doctor or the slot
is missing nothing is written, and the booking from the first step stays
saved. -/
def doctorUpdateStep (req : BookReq) (db : PatientDB) : PatientDB :=
  match jsFindIndex (fun d => d.id == req.doctorId) db.doctors with
  | none => db
  | some di =>
    let doctor := db.doctors.getD di defaultDoctor
    match jsFindIndex (slotMatchesReq req) doctor.timeSlots with
    | none => db
    | some si =>
      let updated : Doctor :=
        { doctor with timeSlots := setSlotStatus doctor.timeSlots si "booked" }
      { db with doctors := db.doctors.set di updated }

/-- POST /patient/book: the composition of its two separate awaited writes,
with no transaction around them. -/
def bookHandler (req : BookReq) (db : PatientDB) : PatientDB :=
  doctorUpdateStep req (bookSaveStep req db)

/-- C8: POST /patient/book always appends a booking in status waiting, with
no check of the matched slot's availability: whenever the doctor is found and
some slot matches, that slot is overwritten to booked whatever its previous
status, and when the doctor lookup fails the booking stays saved with the
doctor collection untouched. -/
theorem book_no_availability_check (req : BookReq) (db : PatientDB) :
    (bookHandler req db).bookings = db.bookings ++ [mkBooking req] ∧
    (mkBooking req).status = "waiting" ∧
    (∀ di, jsFindIndex (fun d => d.id == req.doctorId) db.doctors = some di →
      ∀ si, jsFindIndex (slotMatchesReq req) (db.doctors.getD di defaultDoctor).timeSlots
          = some si →
        (bookHandler req db).doctors = db.doctors.set di
          { db.doctors.getD di defaultDoctor with
              timeSlots :=
                setSlotStatus (db.doctors.getD di defaultDoctor).timeSlots si "booked" }) ∧
    (jsFindIndex (fun d => d.id == req.doctorId) db.doctors = none →
      (bookHandler req db).doctors = db.doctors) := by
  refine ⟨?_, rfl, ?_, ?_⟩
  · cases h1 : jsFindIndex (fun d => d.id == req.doctorId) db.doctors with
    | none => simp only [bookHandler, doctorUpdateStep, bookSaveStep, h1]
    | some di =>
      cases h2 : jsFindIndex (slotMatchesReq req)
          (db.doctors.getD di defaultDoctor).timeSlots with
      | none => simp only [bookHandler, doctorUpdateStep, bookSaveStep, h1, h2]
      | some si => simp only [bookHandler, doctorUpdateStep, bookSaveStep, h1, h2]
  · intro di h1 si h2
    simp only [bookHandler, doctorUpdateStep, bookSaveStep, h1, h2]
  · intro h1
    simp only [bookHandler, doctorUpdateStep, bookSaveStep, h1]

/-- A free 10:00 slot on day 200. -/
def slotFreeTen : TimeSlot :=
  { date := ⟨200, 0, 0⟩, startTime := "10:00", endTime := "11:00", status := "free" }

/-- The doctor holding slotFreeTen. -/
def doctorBookTarget : Doctor :=
  { id := "d1", email := "doc@example.com", timeSlots := [slotFreeTen] }

/-- Initial state: no bookings, one doctor with one free slot. -/
def dbStart : PatientDB := { bookings := [], doctors := [doctorBookTarget] }

/-- Booking request of patient p1 for slotFreeTen. -/
def reqP1 : BookReq :=
  { patientId := "p1", doctorId := "d1", date := slotFreeTen.date.toISOString,
    time := "10:00 - 11:00", consultationType := "In-person" }

/-- The same request from patient p2. -/
def reqP2 : BookReq := { reqP1 with patientId := "p2" }

/-- The same request aimed at a doctor id that does not exist. -/
def reqWrongDoctor : BookReq := { reqP1 with doctorId := "d9" }

/-- The same state as dbStart but with the slot already booked. -/
def dbSlotBooked : PatientDB :=
  { bookings := [],
    doctors := [{ doctorBookTarget with
      timeSlots := [{ slotFreeTen with status := "booked" }] }] }

/-- C8 witness: even against an already booked slot the handler saves a
waiting booking and rewrites the slot to booked. -/
theorem book_no_availability_check_witness :
    (bookHandler reqP1 dbSlotBooked).bookings = dbSlotBooked.bookings ++ [mkBooking reqP1] ∧
    (bookHandler reqP1 dbSlotBooked).doctors = dbSlotBooked.doctors.set 0
      { dbSlotBooked.doctors.getD 0 defaultDoctor with
          timeSlots :=
            setSlotStatus (dbSlotBooked.doctors.getD 0 defaultDoctor).timeSlots 0 "booked" } :=
  have h := book_no_availability_check reqP1 dbSlotBooked
  ⟨h.1, h.2.2.1 0 (by decide) 0 (by decide)⟩

/-- First write of POST /doctor/bookings/:id on its success path: await
booking.save() (doctor.js line 216) persists the booking carrying the status
assignment of lines 206 to 210 and the meeting link of lines 212 to 214. -/
def bookingSaveWrite (now : JsDate) (status : String) (booking : Booking)
    (newLink : String) : Booking :=
  let booking1 : Booking :=
    { booking with
        status := if now.isAfter (bookingEndDateTime booking) then "completed" else status }
  let createLink : Bool :=
    status == "accepted" && strFalsy booking1.meetingLink &&
      booking1.consultationType == "Video call"
  { booking1 with
      meetingLink := if createLink then some newLink else booking1.meetingLink }

/-- Second write of POST /doctor/bookings/:id: await doctor.save() (doctor.js
line 238) persists the slot reconciliation of lines 229 to 236; when no slot
matches, no write happens. -/
def doctorSaveWrite (currentStatus status : String) (booking : Booking)
    (doctor : Doctor) : Doctor :=
  match jsFindIndex (slotMatchesBooking booking) doctor.timeSlots with
  | some i =>
      { doctor with
          timeSlots := setSlotStatus doctor.timeSlots i (newSlotStatus currentStatus status) }
  | none => doctor

/-- The same booking as bookingC3 but still in status waiting, occupying the
second slot of doctorTwoSlots. -/
def bookingWaiting : Booking := { bookingC3 with status := "waiting" }

/-- C7: there is no transactional guarantee between the booking write and the
doctor document update in either handler.  POST /patient/book is literally
the composition of its two separate writes; after the first write alone the
booking is saved while its slot is still free; interleaving the requests p1
and p2 (both save steps, then both update steps) leaves two saved bookings
for the one slot the doctor still records once; a booking aimed at a missing
doctor stays saved with the slot never marked booked.  POST
/doctor/bookings/:id likewise performs booking.save() and doctor.save() as
two separate writes, to whose results the handler's outcome projects, and
between those two writes a just-rejected booking coexists with its slot still
recorded as booked, the slot being freed only by the second write. -/
theorem booking_and_slot_writes_diverge :
    (∀ req db, bookHandler req db = doctorUpdateStep req (bookSaveStep req db)) ∧
    ((bookSaveStep reqP1 dbStart).bookings = [mkBooking reqP1] ∧
      (bookSaveStep reqP1 dbStart).doctors = [doctorBookTarget] ∧
      slotFreeTen.status = "free") ∧
    ((doctorUpdateStep reqP2 (doctorUpdateStep reqP1 (bookSaveStep reqP2
        (bookSaveStep reqP1 dbStart)))).bookings = [mkBooking reqP1, mkBooking reqP2] ∧
      (doctorUpdateStep reqP2 (doctorUpdateStep reqP1 (bookSaveStep reqP2
        (bookSaveStep reqP1 dbStart)))).doctors =
        [{ doctorBookTarget with timeSlots := [{ slotFreeTen with status := "booked" }] }] ∧
      (mkBooking reqP1).date = (mkBooking reqP2).date ∧
      (mkBooking reqP1).time = (mkBooking reqP2).time) ∧
    ((bookHandler reqWrongDoctor dbStart).bookings = [mkBooking reqWrongDoctor] ∧
      (bookHandler reqWrongDoctor dbStart).doctors = [doctorBookTarget]) ∧
    (∀ now status booking doctor link,
      (updateBookingHandler now status booking doctor link).booking =
        bookingSaveWrite now status booking link ∧
      (updateBookingHandler now status booking doctor link).doctor =
        doctorSaveWrite booking.status status booking doctor) ∧
    ((bookingSaveWrite ⟨100, 9, 0⟩ "rejected" bookingWaiting "").status = "rejected" ∧
      doctorTwoSlots.timeSlots.getD 1 slotBefore = slotTen ∧
      slotTen.status = "booked" ∧
      doctorSaveWrite "waiting" "rejected" bookingWaiting doctorTwoSlots =
        { doctorTwoSlots with
            timeSlots := setSlotStatus doctorTwoSlots.timeSlots 1 "free" }) := by
  refine ⟨fun req db => rfl, ?_, ?_, ?_, ?_, ?_⟩
  · exact ⟨by decide, rfl, rfl⟩
  · exact ⟨by decide, by decide, rfl, rfl⟩
  · exact ⟨by decide, by decide⟩
  · intro now status booking doctor link
    cases hidx : jsFindIndex (slotMatchesBooking booking) doctor.timeSlots <;>
      simp [updateBookingHandler, bookingSaveWrite, doctorSaveWrite, hidx]
  · exact ⟨by decide, by decide, by decide, by decide⟩

end MedxBay
